import Mathlib

/-!
# The pinned dependency table of `infra/bots/deps/deps_gen.go`

The Go file declares one package-level variable, `deps`, a map literal from
dependency id to a record `(Id, Version, Path)`.  The table is embedded below as
the list of its `key: value` elements in the order the literal writes them, and
the properties of the table are proved about that list.
-/

namespace Deps

/-- Modelled from the spec: the Go type `deps_parser.DepsEntry` is declared in the
imported package `go.skia.org/infra/go/depot_tools/deps_parser`, whose source is
not part of this file.  The record has the three string fields that every
element of the `deps` literal sets: `Id` (the spec's `id`), `Version` (its
`revision`) and `Path` (its `destinationPath`). -/
structure DepsEntry where
  Id : String
  Version : String
  Path : String
deriving DecidableEq, Repr

/-- Modelled from the spec: the Go type `deps_parser.DepsEntries`, a map from
string key to entry, is declared in the same imported package; a map literal is
kept as its `key: value` elements in source order. -/
abbrev DepsEntries := List (String × DepsEntry)

/-- The `deps` variable of `deps_gen.go`: every element of the literal, in the
order of the file. -/
def deps : DepsEntries :=
[
  ("android.googlesource.com/platform/external/dng_sdk",
    { Id := "android.googlesource.com/platform/external/dng_sdk",
      Version := "c8d0c9b1d16bfda56f15165d39e0ffa360a11123",
      Path := "third_party/externals/dng_sdk" }),
  ("android.googlesource.com/platform/external/libmicrohttpd",
    { Id := "android.googlesource.com/platform/external/libmicrohttpd",
      Version := "748945ec6f1c67b7efc934ab0808e1d32f2fb98d",
      Path := "third_party/externals/microhttpd" }),
  ("android.googlesource.com/platform/external/perfetto",
    { Id := "android.googlesource.com/platform/external/perfetto",
      Version := "93885509be1c9240bc55fa515ceb34811e54a394",
      Path := "third_party/externals/perfetto" }),
  ("android.googlesource.com/platform/external/piex",
    { Id := "android.googlesource.com/platform/external/piex",
      Version := "bb217acdca1cc0c16b704669dd6f91a1b509c406",
      Path := "third_party/externals/piex" }),
  ("chromium.googlesource.com/angle/angle",
    { Id := "chromium.googlesource.com/angle/angle",
      Version := "59eff3660f8189652641690ac8af36281b0e1a88",
      Path := "third_party/externals/angle2" }),
  ("chromium.googlesource.com/chromium/deps/icu",
    { Id := "chromium.googlesource.com/chromium/deps/icu",
      Version := "364118a1d9da24bb5b770ac3d762ac144d6da5a4",
      Path := "third_party/externals/icu" }),
  ("chromium.googlesource.com/chromium/deps/libjpeg_turbo",
    { Id := "chromium.googlesource.com/chromium/deps/libjpeg_turbo",
      Version := "ccfbe1c82a3b6dbe8647ceb36a3f9ee711fba3cf",
      Path := "third_party/externals/libjpeg-turbo" }),
  ("chromium.googlesource.com/chromium/src/buildtools",
    { Id := "chromium.googlesource.com/chromium/src/buildtools",
      Version := "b138e6ce86ae843c42a1a08f37903207bebcca75",
      Path := "buildtools" }),
  ("chromium.googlesource.com/chromium/src/third_party/freetype2",
    { Id := "chromium.googlesource.com/chromium/src/third_party/freetype2",
      Version := "f92c96550ad763639158587974cf11067ace743d",
      Path := "third_party/externals/freetype" }),
  ("chromium.googlesource.com/chromium/src/third_party/jinja2",
    { Id := "chromium.googlesource.com/chromium/src/third_party/jinja2",
      Version := "e2d024354e11cc6b041b0cff032d73f0c7e43a07",
      Path := "third_party/externals/jinja2" }),
  ("chromium.googlesource.com/chromium/src/third_party/markupsafe",
    { Id := "chromium.googlesource.com/chromium/src/third_party/markupsafe",
      Version := "0bad08bb207bbfc1d6f3bbc82b9242b0c50e5794",
      Path := "third_party/externals/markupsafe" }),
  ("chromium.googlesource.com/chromium/src/third_party/zlib",
    { Id := "chromium.googlesource.com/chromium/src/third_party/zlib",
      Version := "646b7f569718921d7d4b5b8e22572ff6c76f2596",
      Path := "third_party/externals/zlib" }),
  ("chromium.googlesource.com/codecs/libgav1",
    { Id := "chromium.googlesource.com/codecs/libgav1",
      Version := "5cf722e659014ebaf2f573a6dd935116d36eadf1",
      Path := "third_party/externals/libgav1" }),
  ("chromium.googlesource.com/external/github.com/GPUOpen-LibrariesAndSDKs/VulkanMemoryAllocator",
    { Id := "chromium.googlesource.com/external/github.com/GPUOpen-LibrariesAndSDKs/VulkanMemoryAllocator",
      Version := "a6bfc237255a6bac1513f7c1ebde6d8aed6b5191",
      Path := "third_party/externals/vulkanmemoryallocator" }),
  ("chromium.googlesource.com/external/github.com/KhronosGroup/SPIRV-Cross",
    { Id := "chromium.googlesource.com/external/github.com/KhronosGroup/SPIRV-Cross",
      Version := "b8fcf307f1f347089e3c46eb4451d27f32ebc8d3",
      Path := "third_party/externals/spirv-cross" }),
  ("chromium.googlesource.com/external/github.com/KhronosGroup/Vulkan-Headers",
    { Id := "chromium.googlesource.com/external/github.com/KhronosGroup/Vulkan-Headers",
      Version := "c6391a7b8cd57e79ce6b6c832c8e3043c4d9967b",
      Path := "third_party/externals/vulkan-headers" }),
  ("chromium.googlesource.com/external/github.com/KhronosGroup/Vulkan-Tools",
    { Id := "chromium.googlesource.com/external/github.com/KhronosGroup/Vulkan-Tools",
      Version := "4c63e845962ff3b197855f3ae4907a47d0863f5a",
      Path := "third_party/externals/vulkan-tools" }),
  ("chromium.googlesource.com/external/github.com/KhronosGroup/Vulkan-Utility-Libraries",
    { Id := "chromium.googlesource.com/external/github.com/KhronosGroup/Vulkan-Utility-Libraries",
      Version := "fbb4db92c6b2ac09003b2b8e5ceb978f4f2dda71",
      Path := "third_party/externals/vulkan-utility-libraries" }),
  ("chromium.googlesource.com/external/github.com/google/highway",
    { Id := "chromium.googlesource.com/external/github.com/google/highway",
      Version := "424360251cdcfc314cfc528f53c872ecd63af0f0",
      Path := "third_party/externals/highway" }),
  ("chromium.googlesource.com/external/github.com/google/oboe",
    { Id := "chromium.googlesource.com/external/github.com/google/oboe",
      Version := "b02a12d1dd821118763debec6b83d00a8a0ee419",
      Path := "third_party/externals/oboe" }),
  ("chromium.googlesource.com/external/github.com/harfbuzz/harfbuzz",
    { Id := "chromium.googlesource.com/external/github.com/harfbuzz/harfbuzz",
      Version := "b74a7ecc93e283d059df51ee4f46961a782bcdb8",
      Path := "third_party/externals/harfbuzz" }),
  ("chromium.googlesource.com/external/github.com/libexpat/libexpat",
    { Id := "chromium.googlesource.com/external/github.com/libexpat/libexpat",
      Version := "441f98d02deafd9b090aea568282b28f66a50e36",
      Path := "third_party/externals/expat" }),
  ("chromium.googlesource.com/external/github.com/unicode-org/icu4x",
    { Id := "chromium.googlesource.com/external/github.com/unicode-org/icu4x",
      Version := "bcf4f7198d4dc5f3127e84a6ca657c88e7d07a13",
      Path := "third_party/externals/icu4x" }),
  ("chromium.googlesource.com/external/github.com/unicode-org/unicodetools",
    { Id := "chromium.googlesource.com/external/github.com/unicode-org/unicodetools",
      Version := "66a3fa9dbdca3b67053a483d130564eabc5fe095",
      Path := "third_party/externals/unicodetools" }),
  ("chromium.googlesource.com/external/gitlab.com/wg1/jpeg-xl",
    { Id := "chromium.googlesource.com/external/gitlab.com/wg1/jpeg-xl",
      Version := "a205468bc5d3a353fb15dae2398a101dff52f2d3",
      Path := "third_party/externals/libjxl" }),
  ("chromium.googlesource.com/libyuv/libyuv",
    { Id := "chromium.googlesource.com/libyuv/libyuv",
      Version := "d248929c059ff7629a85333699717d7a677d8d96",
      Path := "third_party/externals/libyuv" }),
  ("chromium.googlesource.com/vulkan-deps",
    { Id := "chromium.googlesource.com/vulkan-deps",
      Version := "a0dffec9be81ca97ea8e9eb14e162ac285271a32",
      Path := "third_party/externals/vulkan-deps" }),
  ("chromium.googlesource.com/webm/libwebp",
    { Id := "chromium.googlesource.com/webm/libwebp",
      Version := "845d5476a866141ba35ac133f856fa62f0b7445f",
      Path := "third_party/externals/libwebp" }),
  ("dawn.googlesource.com/dawn",
    { Id := "dawn.googlesource.com/dawn",
      Version := "b339ed4daf668b7377134347f29a41239dee3ed6",
      Path := "third_party/externals/dawn" }),
  ("infra/3pp/tools/ninja",
    { Id := "infra/3pp/tools/ninja",
      Version := "version:2@1.12.1.chromium.4",
      Path := "bin" }),
  ("skia.googlesource.com/buildbot",
    { Id := "skia.googlesource.com/buildbot",
      Version := "f982e0beb5dbd4d9c3f345d572808157c74f8e86",
      Path := "infra/skia-infra" }),
  ("skia.googlesource.com/external/github.com/AOMediaCodec/libavif",
    { Id := "skia.googlesource.com/external/github.com/AOMediaCodec/libavif",
      Version := "55aab4ac0607ab651055d354d64c4615cf3d8000",
      Path := "third_party/externals/libavif" }),
  ("skia.googlesource.com/external/github.com/FRIGN/libgrapheme",
    { Id := "skia.googlesource.com/external/github.com/FRIGN/libgrapheme",
      Version := "c0cab63c5300fa12284194fbef57aa2ed62a94c0",
      Path := "third_party/externals/libgrapheme" }),
  ("skia.googlesource.com/external/github.com/GPUOpen-LibrariesAndSDKs/D3D12MemoryAllocator",
    { Id := "skia.googlesource.com/external/github.com/GPUOpen-LibrariesAndSDKs/D3D12MemoryAllocator",
      Version := "169895d529dfce00390a20e69c2f516066fe7a3b",
      Path := "third_party/externals/d3d12allocator" }),
  ("skia.googlesource.com/external/github.com/KhronosGroup/EGL-Registry",
    { Id := "skia.googlesource.com/external/github.com/KhronosGroup/EGL-Registry",
      Version := "b055c9b483e70ecd57b3cf7204db21f5a06f9ffe",
      Path := "third_party/externals/egl-registry" }),
  ("skia.googlesource.com/external/github.com/KhronosGroup/OpenGL-Registry",
    { Id := "skia.googlesource.com/external/github.com/KhronosGroup/OpenGL-Registry",
      Version := "14b80ebeab022b2c78f84a573f01028c96075553",
      Path := "third_party/externals/opengl-registry" }),
  ("skia.googlesource.com/external/github.com/KhronosGroup/SPIRV-Headers",
    { Id := "skia.googlesource.com/external/github.com/KhronosGroup/SPIRV-Headers",
      Version := "efb6b4099ddb8fa60f62956dee592c4b94ec6a49",
      Path := "third_party/externals/spirv-headers" }),
  ("skia.googlesource.com/external/github.com/KhronosGroup/SPIRV-Tools",
    { Id := "skia.googlesource.com/external/github.com/KhronosGroup/SPIRV-Tools",
      Version := "2a67ced4331d22f2fc1b17f2d54b2330c5ad8765",
      Path := "third_party/externals/spirv-tools" }),
  ("skia.googlesource.com/external/github.com/abseil/abseil-cpp",
    { Id := "skia.googlesource.com/external/github.com/abseil/abseil-cpp",
      Version := "65a55c2ba891f6d2492477707f4a2e327a0b40dc",
      Path := "third_party/externals/abseil-cpp" }),
  ("skia.googlesource.com/external/github.com/emscripten-core/emsdk",
    { Id := "skia.googlesource.com/external/github.com/emscripten-core/emsdk",
      Version := "a896e3d066448b3530dbcaa48869fafefd738f57",
      Path := "third_party/externals/emsdk" }),
  ("skia.googlesource.com/external/github.com/google/brotli",
    { Id := "skia.googlesource.com/external/github.com/google/brotli",
      Version := "6d03dfbedda1615c4cba1211f8d81735575209c8",
      Path := "third_party/externals/brotli" }),
  ("skia.googlesource.com/external/github.com/google/wuffs-mirror-release-c",
    { Id := "skia.googlesource.com/external/github.com/google/wuffs-mirror-release-c",
      Version := "e3f919ccfe3ef542cfc983a82146070258fb57f8",
      Path := "third_party/externals/wuffs" }),
  ("skia.googlesource.com/external/github.com/linebender/vello",
    { Id := "skia.googlesource.com/external/github.com/linebender/vello",
      Version := "3ee3bea02164c5a816fe6c16ef4e3a810edb7620",
      Path := "third_party/externals/vello" }),
  ("skia.googlesource.com/external/github.com/ocornut/imgui",
    { Id := "skia.googlesource.com/external/github.com/ocornut/imgui",
      Version := "55d35d8387c15bf0cfd71861df67af8cfbda7456",
      Path := "third_party/externals/imgui" }),
  ("skia.googlesource.com/third_party/libpng",
    { Id := "skia.googlesource.com/third_party/libpng",
      Version := "ed217e3e601d8e462f7fd1e04bed43ac42212429",
      Path := "third_party/externals/libpng" }),
  ("skia/tools/bazel_build",
    { Id := "skia/tools/bazel_build",
      Version := "git_revision:b5d31abb7bc772a69f800de45783768768437675",
      Path := "task_drivers" }),
  ("skia/tools/sk",
    { Id := "skia/tools/sk",
      Version := "git_revision:f982e0beb5dbd4d9c3f345d572808157c74f8e86",
      Path := "bin" }),
  ("swiftshader.googlesource.com/SwiftShader",
    { Id := "swiftshader.googlesource.com/SwiftShader",
      Version := "5561c71fa64e5f7f726f74f23a8aac5cc308d18a",
      Path := "third_party/externals/swiftshader" })
]

/-! ## Go string operations used to state the properties -/

/-- Bytes of a Go string constant: a Go string is the byte sequence of the
UTF-8 encoding of the characters written in the literal. -/
def bytes (s : String) : List Nat :=
  (s.toList.flatMap String.utf8EncodeChar).map UInt8.toNat

/-- Byte-wise lexicographic "less than", the order of Go's `<` on strings: the
first differing byte decides, and a proper initial segment is smaller. -/
def bytesLess : List Nat → List Nat → Bool
  | [], [] => false
  | [], _ :: _ => true
  | _ :: _, [] => false
  | a :: as, b :: bs =>
    if a < b then true else if b < a then false else bytesLess as bs

/-- Order of two keys as Go strings. -/
def keyLess (a b : String) : Prop := bytesLess (bytes a) (bytes b) = true

instance (a b : String) : Decidable (keyLess a b) :=
  inferInstanceAs (Decidable (bytesLess (bytes a) (bytes b) = true))

/-- Pieces of a character sequence between consecutive '/' characters, as
`strings.Split(s, "/")` returns them: the empty sequence has the single empty
piece, and `n` separators give `n + 1` pieces. -/
def splitChars : List Char → List (List Char)
  | [] => [[]]
  | c :: cs =>
    if c = '/' then [] :: splitChars cs
    else
      match splitChars cs with
      | [] => [[c]]
      | w :: ws => (c :: w) :: ws

/-- The '/'-separated components of a path or id. -/
def components (s : String) : List String :=
  (splitChars s.toList).map String.mk

/-- First '/'-separated segment of an id. -/
def firstSegment (s : String) : String :=
  (components s).headD ""

/-- A character of `[0-9a-f]`. -/
def isLowerHex (c : Char) : Bool :=
  (decide ('0' ≤ c) && decide (c ≤ '9')) || (decide ('a' ≤ c) && decide (c ≤ 'f'))

/-- A bare commit hash: exactly 40 characters, all of `[0-9a-f]`. -/
def isCommitHash (s : String) : Bool :=
  decide (s.toList.length = 40) && s.toList.all isLowerHex

/-- The component list `a` is a proper initial segment of the component list `b`:
it starts `b` and is not the whole of it, so that the directory `b` lies
strictly inside the directory `a`. -/
def ProperInitial (a b : List String) : Prop := a <+: b ∧ a ≠ b

instance (a b : List String) : Decidable (ProperInitial a b) :=
  inferInstanceAs (Decidable (a <+: b ∧ a ≠ b))

/-- Raw string reading of "is a proper prefix of": the characters of `a` start
`b` and `a` is not all of `b`. -/
def ProperStringStart (a b : String) : Prop := a.toList <+: b.toList ∧ a ≠ b

instance (a b : String) : Decidable (ProperStringStart a b) :=
  inferInstanceAs (Decidable (a.toList <+: b.toList ∧ a ≠ b))

/-- Consecutive keys of a list are in strictly ascending byte order. -/
def ascendingKeys : List String → Bool
  | a :: b :: rest => decide (keyLess a b) && ascendingKeys (b :: rest)
  | _ => true

/-! ## Selected elements of the table -/

/-- The element of `deps` for the ninja package. -/
def ninja : String × DepsEntry :=
  ("infra/3pp/tools/ninja",
    { Id := "infra/3pp/tools/ninja",
      Version := "version:2@1.12.1.chromium.4",
      Path := "bin" })

/-- The element of `deps` for the `sk` tool package. -/
def sk : String × DepsEntry :=
  ("skia/tools/sk",
    { Id := "skia/tools/sk",
      Version := "git_revision:f982e0beb5dbd4d9c3f345d572808157c74f8e86",
      Path := "bin" })

/-- The element of `deps` for the ICU checkout. -/
def icu : String × DepsEntry :=
  ("chromium.googlesource.com/chromium/deps/icu",
    { Id := "chromium.googlesource.com/chromium/deps/icu",
      Version := "364118a1d9da24bb5b770ac3d762ac144d6da5a4",
      Path := "third_party/externals/icu" })

/-- The element of `deps` for the ICU4X checkout. -/
def icu4x : String × DepsEntry :=
  ("chromium.googlesource.com/external/github.com/unicode-org/icu4x",
    { Id := "chromium.googlesource.com/external/github.com/unicode-org/icu4x",
      Version := "bcf4f7198d4dc5f3127e84a6ca657c88e7d07a13",
      Path := "third_party/externals/icu4x" })

/-- Position of the first element of the literal. -/
def firstPos : Fin deps.length := ⟨0, by decide⟩

/-- Position of the second element of the literal. -/
def secondPos : Fin deps.length := ⟨1, by decide⟩

/-! ## General facts about the string operations -/

theorem bytesLess_irrefl : ∀ l : List Nat, bytesLess l l = false
  | [] => rfl
  | a :: as => by
    simp [bytesLess, bytesLess_irrefl as]

theorem bytesLess_trans : ∀ a b c : List Nat,
    bytesLess a b = true → bytesLess b c = true → bytesLess a c = true
  | [], [], _, h, _ => by simp [bytesLess] at h
  | [], _ :: _, [], _, h => by simp [bytesLess] at h
  | [], _ :: _, _ :: _, _, _ => by simp [bytesLess]
  | _ :: _, [], _, h, _ => by simp [bytesLess] at h
  | _ :: _, _ :: _, [], _, h => by simp [bytesLess] at h
  | x :: xs, y :: ys, z :: zs, hxy, hyz => by
    simp only [bytesLess] at hxy hyz ⊢
    by_cases h1 : x < y
    · by_cases h2 : y < z
      · have h3 : x < z := Nat.lt_trans h1 h2
        simp [h3]
      · by_cases h4 : z < y
        · simp [h2, h4] at hyz
        · have h5 : y = z := by omega
          subst h5
          simp [h1]
    · by_cases h6 : y < x
      · simp [h1, h6] at hxy
      · have h7 : x = y := by omega
        subst h7
        simp only [h1, if_false] at hxy
        by_cases h2 : x < z
        · simp [h2]
        · by_cases h4 : z < x
          · simp [h2, h4] at hyz
          · simp only [h2, h4, if_false] at hyz ⊢
            exact bytesLess_trans xs ys zs hxy hyz

theorem keyLess_ne {a b : String} (h : keyLess a b) : a ≠ b := by
  intro hab
  subst hab
  unfold keyLess at h
  rw [bytesLess_irrefl] at h
  exact Bool.noConfusion h

theorem chain_of_ascendingKeys : ∀ l : List String,
    ascendingKeys l = true → List.Chain' keyLess l
  | [], _ => List.chain'_nil
  | [_], _ => List.chain'_singleton _
  | a :: b :: rest, h => by
    simp only [ascendingKeys, Bool.and_eq_true, decide_eq_true_eq] at h
    exact List.chain'_cons.mpr ⟨h.1, chain_of_ascendingKeys (b :: rest) h.2⟩

/-- Strictly ascending keys are pairwise distinct. -/
theorem nodup_of_chain_keyLess {l : List String} (h : List.Chain' keyLess l) :
    l.Nodup := by
  haveI : IsTrans String keyLess :=
    ⟨fun a b c hab hbc => bytesLess_trans (bytes a) (bytes b) (bytes c) hab hbc⟩
  exact (List.chain'_iff_pairwise.mp h).imp keyLess_ne

/-! ## Facts computed on the table -/

theorem ninja_mem : ninja ∈ deps := by decide

theorem sk_mem : sk ∈ deps := by decide

theorem icu_mem : icu ∈ deps := by decide

theorem icu4x_mem : icu4x ∈ deps := by decide

theorem key_eq_id_of_mem : ∀ p ∈ deps, p.1 = p.2.Id := by decide!

theorem deps_keys_chain : List.Chain' keyLess (deps.map Prod.fst) :=
  chain_of_ascendingKeys _ (by decide!)

theorem deps_keys_nodup : (deps.map Prod.fst).Nodup :=
  nodup_of_chain_keyLess deps_keys_chain

theorem deps_ids_nodup : (deps.map (fun p => p.2.Id)).Nodup := by
  have h : deps.map (fun p => p.2.Id) = deps.map Prod.fst :=
    List.map_congr_left (fun p hp => (key_eq_id_of_mem p hp).symm)
  rw [h]
  exact deps_keys_nodup

theorem deps_paths_pairwise :
    deps.Pairwise (fun p q =>
      p.2.Path ≠ q.2.Path ∨
        (p.2.Path = "bin" ∧ q.2.Path = "bin" ∧
          ((p.2.Id = "infra/3pp/tools/ninja" ∧ q.2.Id = "skia/tools/sk") ∨
            (p.2.Id = "skia/tools/sk" ∧ q.2.Id = "infra/3pp/tools/ninja")))) := by
  decide!

theorem deps_nesting_pairwise :
    (deps.map (fun p => components p.2.Path)).Pairwise (fun a b =>
      ¬ ProperInitial a b ∧ ¬ ProperInitial b a) := by
  decide!

theorem deps_string_start_cases : ∀ p ∈ deps, ∀ q ∈ deps,
    ProperStringStart p.2.Path q.2.Path →
      p.2.Id = "chromium.googlesource.com/chromium/deps/icu" ∧
        q.2.Id = "chromium.googlesource.com/external/github.com/unicode-org/icu4x" := by
  decide!

theorem deps_version_cases : ∀ p ∈ deps,
    p.2.Version ≠ "" ∧
      (isCommitHash p.2.Version = true ∨
        p.2.Version = "version:2@1.12.1.chromium.4" ∨
        p.2.Version = "git_revision:b5d31abb7bc772a69f800de45783768768437675" ∨
        p.2.Version = "git_revision:f982e0beb5dbd4d9c3f345d572808157c74f8e86") := by
  decide!

/-! ## Properties of the table -/

/-- C1: every element of the `deps` literal is stored under a key that is equal,
as a string, to the `Id` field of its entry. -/
theorem deps_key_eq_id : ∀ p ∈ deps, p.1 = p.2.Id := by
  decide!

theorem deps_key_eq_id_witness : ninja ∈ deps ∧ ninja.1 = ninja.2.Id :=
  ⟨ninja_mem, deps_key_eq_id ninja ninja_mem⟩

/-- C2: two elements at different positions of the `deps` literal never have the
same `Id`, nor the same key, so the table holds no duplicated id for a
duplicate-id check to reject. -/
theorem deps_ids_distinct : ∀ i j : Fin deps.length, i ≠ j →
    (deps.get i).2.Id ≠ (deps.get j).2.Id ∧ (deps.get i).1 ≠ (deps.get j).1 := by
  have hpair : deps.Pairwise (fun p q => p.2.Id ≠ q.2.Id) :=
    List.pairwise_map.mp deps_ids_nodup
  have hget := List.pairwise_iff_get.mp hpair
  have hid : ∀ i j : Fin deps.length, i ≠ j →
      (deps.get i).2.Id ≠ (deps.get j).2.Id := by
    intro i j hij
    rcases lt_or_gt_of_ne hij with h | h
    · exact hget i j h
    · exact fun e => hget j i h e.symm
  intro i j hij
  refine ⟨hid i j hij, ?_⟩
  rw [key_eq_id_of_mem _ (List.get_mem deps i.1 i.2),
    key_eq_id_of_mem _ (List.get_mem deps j.1 j.2)]
  exact hid i j hij

theorem deps_ids_distinct_witness :
    firstPos ≠ secondPos ∧
      (deps.get firstPos).2.Id ≠ (deps.get secondPos).2.Id ∧
      (deps.get firstPos).1 ≠ (deps.get secondPos).1 :=
  ⟨by decide, deps_ids_distinct firstPos secondPos (by decide)⟩

/-- C3: every `Path` of the `deps` table passes the path check of validation: it
is not empty, it does not begin with '/', and none of its '/'-separated
components is "..", "." or empty. -/
theorem deps_paths_valid : ∀ p ∈ deps,
    p.2.Path ≠ "" ∧ p.2.Path.toList.head? ≠ some '/' ∧
      ∀ c ∈ components p.2.Path, c ≠ ".." ∧ c ≠ "." ∧ c ≠ "" := by
  decide!

theorem deps_paths_valid_witness :
    icu ∈ deps ∧ icu.2.Path ≠ "" ∧ icu.2.Path.toList.head? ≠ some '/' ∧
      ∀ c ∈ components icu.2.Path, c ≠ ".." ∧ c ≠ "." ∧ c ≠ "" :=
  ⟨icu_mem, deps_paths_valid icu icu_mem⟩

/-- C4, as the spec states it, fails on the table: the elements with ids
"infra/3pp/tools/ninja" and "skia/tools/sk" have different ids and the same
`Path`, "bin", so it is not true that entries with different ids always have
different paths. -/
theorem deps_bin_shared :
    (∃ p ∈ deps, ∃ q ∈ deps,
        p.2.Id = "infra/3pp/tools/ninja" ∧ q.2.Id = "skia/tools/sk" ∧
        p.2.Id ≠ q.2.Id ∧ p.2.Path = "bin" ∧ q.2.Path = "bin") ∧
      ¬ (∀ p ∈ deps, ∀ q ∈ deps, p.2.Id ≠ q.2.Id → p.2.Path ≠ q.2.Path) :=
  ⟨⟨ninja, ninja_mem, sk, sk_mem, rfl, rfl, by decide, rfl, rfl⟩,
    fun h => h ninja ninja_mem sk sk_mem (by decide) rfl⟩

/-- C4, amended: two entries of the `deps` table with different ids have
different `Path` strings, except the two package entries
"infra/3pp/tools/ninja" and "skia/tools/sk", which both have the `Path` "bin". -/
theorem deps_paths_distinct_except_bin : ∀ p ∈ deps, ∀ q ∈ deps,
    p.2.Id ≠ q.2.Id →
      p.2.Path ≠ q.2.Path ∨
        (p.2.Path = "bin" ∧ q.2.Path = "bin" ∧
          ((p.2.Id = "infra/3pp/tools/ninja" ∧ q.2.Id = "skia/tools/sk") ∨
            (p.2.Id = "skia/tools/sk" ∧ q.2.Id = "infra/3pp/tools/ninja"))) := by
  intro p hp q hq hid
  refine List.Pairwise.forall ?_ deps_paths_pairwise hp hq (fun e => hid (by rw [e]))
  intro a b hab
  rcases hab with h | ⟨ha, hb, h⟩
  · exact Or.inl (fun e => h e.symm)
  · exact Or.inr ⟨hb, ha, h.symm.imp (fun x => ⟨x.2, x.1⟩) (fun x => ⟨x.2, x.1⟩)⟩

theorem deps_paths_distinct_except_bin_witness :
    ninja ∈ deps ∧ sk ∈ deps ∧ ninja.2.Id ≠ sk.2.Id ∧
      (ninja.2.Path ≠ sk.2.Path ∨
        (ninja.2.Path = "bin" ∧ sk.2.Path = "bin" ∧
          ((ninja.2.Id = "infra/3pp/tools/ninja" ∧ sk.2.Id = "skia/tools/sk") ∨
            (ninja.2.Id = "skia/tools/sk" ∧
              sk.2.Id = "infra/3pp/tools/ninja")))) :=
  ⟨ninja_mem, sk_mem, by decide,
    deps_paths_distinct_except_bin ninja ninja_mem sk sk_mem (by decide)⟩

/-- C5: every `Version` of the `deps` table is a non-empty pinned revision of
one of three shapes: a commit hash of exactly 40 characters of `[0-9a-f]`, the
tag "version:" followed by non-empty text, or the tag "git_revision:" followed
by 40 characters of `[0-9a-f]`. -/
theorem deps_versions_pinned : ∀ p ∈ deps,
    p.2.Version ≠ "" ∧
      (isCommitHash p.2.Version = true ∨
        (∃ t : String, t ≠ "" ∧ p.2.Version = "version:" ++ t) ∨
        (∃ h : String, isCommitHash h = true ∧
          p.2.Version = "git_revision:" ++ h)) := by
  intro p hp
  obtain ⟨hne, hcase⟩ := deps_version_cases p hp
  refine ⟨hne, ?_⟩
  rcases hcase with h | h | h | h
  · exact Or.inl h
  · exact Or.inr (Or.inl ⟨"2@1.12.1.chromium.4", by decide, by rw [h]; decide⟩)
  · exact Or.inr (Or.inr ⟨"b5d31abb7bc772a69f800de45783768768437675", by decide,
      by rw [h]; decide⟩)
  · exact Or.inr (Or.inr ⟨"f982e0beb5dbd4d9c3f345d572808157c74f8e86", by decide,
      by rw [h]; decide⟩)

theorem deps_versions_pinned_witness :
    sk ∈ deps ∧ sk.2.Version ≠ "" ∧
      (isCommitHash sk.2.Version = true ∨
        (∃ t : String, t ≠ "" ∧ sk.2.Version = "version:" ++ t) ∨
        (∃ h : String, isCommitHash h = true ∧
          sk.2.Version = "git_revision:" ++ h)) :=
  ⟨sk_mem, deps_versions_pinned sk sk_mem⟩

/-- C6: for two entries of the `deps` table with different `Path`, the list of
'/'-separated components of neither path is a proper initial segment of the
component list of the other, so no destination lies strictly inside another and
path nesting relates no two entries. -/
theorem deps_paths_not_nested : ∀ p ∈ deps, ∀ q ∈ deps,
    p.2.Path ≠ q.2.Path →
      ¬ ProperInitial (components p.2.Path) (components q.2.Path) ∧
        ¬ ProperInitial (components q.2.Path) (components p.2.Path) := by
  intro p hp q hq _
  have hpair := List.pairwise_map.mp deps_nesting_pairwise
  refine List.Pairwise.forall_of_forall ?_ ?_ hpair hp hq
  · intro a b hab
    exact ⟨hab.2, hab.1⟩
  · intro a _
    exact ⟨fun h => h.2 rfl, fun h => h.2 rfl⟩

theorem deps_paths_not_nested_witness :
    icu ∈ deps ∧ icu4x ∈ deps ∧ icu.2.Path ≠ icu4x.2.Path ∧
      ¬ ProperInitial (components icu.2.Path) (components icu4x.2.Path) ∧
      ¬ ProperInitial (components icu4x.2.Path) (components icu.2.Path) :=
  ⟨icu_mem, icu4x_mem, by decide,
    deps_paths_not_nested icu icu_mem icu4x icu4x_mem (by decide)⟩

/-- C7: the fetch backend of an entry of the `deps` table shows in its `Id`: the
`Version` is a bare 40-character lowercase-hex commit hash exactly when the
first '/'-separated segment of the `Id` contains a '.', and an entry whose first
segment has no '.' has a `Version` that begins with "version:" or with
"git_revision:". -/
theorem deps_backend_from_id : ∀ p ∈ deps,
    (isCommitHash p.2.Version = true ↔ '.' ∈ (firstSegment p.2.Id).toList) ∧
      ('.' ∉ (firstSegment p.2.Id).toList →
        "version:".toList <+: p.2.Version.toList ∨
          "git_revision:".toList <+: p.2.Version.toList) := by
  decide!

theorem deps_backend_from_id_witness :
    ninja ∈ deps ∧
      (isCommitHash ninja.2.Version = true ↔
        '.' ∈ (firstSegment ninja.2.Id).toList) ∧
      ('.' ∉ (firstSegment ninja.2.Id).toList →
        "version:".toList <+: ninja.2.Version.toList ∨
          "git_revision:".toList <+: ninja.2.Version.toList) :=
  ⟨ninja_mem, deps_backend_from_id ninja ninja_mem⟩

/-- C8: the keys of the `deps` literal, in source order, are strictly ascending
in byte-wise lexicographic order, every key being smaller than the next one; in
particular the consecutive keys "skia.googlesource.com/third_party/libpng" and
"skia/tools/bazel_build" agree on their first four bytes and differ at the
fifth, where '.' is smaller than '/'; and therefore the keys are pairwise
distinct. -/
theorem deps_keys_ascending :
    List.Chain' keyLess (deps.map Prod.fst) ∧
      ((deps.map Prod.fst)[44]? = some "skia.googlesource.com/third_party/libpng" ∧
        (deps.map Prod.fst)[45]? = some "skia/tools/bazel_build" ∧
        keyLess "skia.googlesource.com/third_party/libpng" "skia/tools/bazel_build" ∧
        (bytes "skia.googlesource.com/third_party/libpng").take 4 =
          (bytes "skia/tools/bazel_build").take 4 ∧
        (bytes "skia.googlesource.com/third_party/libpng")[4]? = some ('.').toNat ∧
        (bytes "skia/tools/bazel_build")[4]? = some ('/').toNat ∧
        ('.').toNat < ('/').toNat) ∧
      (deps.map Prod.fst).Nodup :=
  ⟨deps_keys_chain,
    ⟨by decide!, by decide!, by decide!, by decide!, by decide!, by decide!,
      by decide⟩,
    nodup_of_chain_keyLess deps_keys_chain⟩

/-- C9: read as a raw string prefix, "one path is a prefix of another" relates
the entries "chromium.googlesource.com/chromium/deps/icu", with `Path`
"third_party/externals/icu", and
"chromium.googlesource.com/external/github.com/unicode-org/icu4x", with `Path`
"third_party/externals/icu4x": the first path is a proper string prefix of the
second, although the component list of neither is an initial segment of the
other; and these two, in this order, are the only entries with different paths
related by proper string prefix. -/
theorem deps_string_prefix_only_icu :
    (∃ p ∈ deps, ∃ q ∈ deps,
        p.2.Id = "chromium.googlesource.com/chromium/deps/icu" ∧
        p.2.Path = "third_party/externals/icu" ∧
        q.2.Id = "chromium.googlesource.com/external/github.com/unicode-org/icu4x" ∧
        q.2.Path = "third_party/externals/icu4x" ∧
        ProperStringStart p.2.Path q.2.Path ∧
        ¬ (components p.2.Path <+: components q.2.Path) ∧
        ¬ (components q.2.Path <+: components p.2.Path)) ∧
      (∀ p ∈ deps, ∀ q ∈ deps, p.2.Path ≠ q.2.Path →
        ProperStringStart p.2.Path q.2.Path →
          p.2.Id = "chromium.googlesource.com/chromium/deps/icu" ∧
            q.2.Id =
              "chromium.googlesource.com/external/github.com/unicode-org/icu4x") :=
  ⟨⟨icu, icu_mem, icu4x, icu4x_mem, rfl, rfl, rfl, rfl, by decide, by decide,
      by decide⟩,
    fun p hp q hq _ h => deps_string_start_cases p hp q hq h⟩

theorem deps_string_prefix_only_icu_witness :
    icu ∈ deps ∧ icu4x ∈ deps ∧ icu.2.Path ≠ icu4x.2.Path ∧
      ProperStringStart icu.2.Path icu4x.2.Path ∧
      icu.2.Id = "chromium.googlesource.com/chromium/deps/icu" ∧
      icu4x.2.Id =
        "chromium.googlesource.com/external/github.com/unicode-org/icu4x" :=
  ⟨icu_mem, icu4x_mem, by decide, by decide,
    deps_string_prefix_only_icu.2 icu icu_mem icu4x icu4x_mem (by decide)
      (by decide)⟩

end Deps
